import Mathlib

/-!
Verification of the pixorter core: the evidence-reconciliation algorithm
(`date_extract.get_snap_date`) and the path-assignment algorithm
(`picture_manip.get_path_couples`, `picture.Picture.get_output_path`),
shallowly embedded from the Python sources.

Modelling conventions:
* Python `datetime` is the six-field record `Datetime`; construction via
  `datetime(**kwargs)` is `pyDatetime`, which validates field ranges the way
  CPython does (ValueError on out-of-range, TypeError when year/month/day is
  missing).
* Python exceptions are the `PyError` type; a function that may raise returns
  `Except PyError _`.
* `pathlib.Path` values are plain strings; `Path.name` and `Path.suffix` are
  embedded as `pathName` and `pathSuffix` following CPython's pathlib.
* The module `globals.py` is not part of the sources; the supported-extension
  sets `IMAGE_EXTENSIONS` / `VIDEO_EXTENSIONS` are passed as parameters, and
  the outcome of matching `FILENAME_REGEXES` against a filename is passed as a
  `MatchResult` input (modelled from the spec: each pattern exposes the
  optional named capture groups year, month, day, hour, minute, second).
-/

/-- Python `datetime` restricted to the fields pixorter uses
(year, month, day, hour, minute, second). -/
structure Datetime where
  year : Nat
  month : Nat
  day : Nat
  hour : Nat
  minute : Nat
  second : Nat
deriving DecidableEq

/-- Python `datetime.date()`: the calendar-date projection. -/
def Datetime.date (d : Datetime) : Nat × Nat × Nat :=
  (d.year, d.month, d.day)

/-- The Python exceptions get_snap_date and its sources can raise:
`NoMatchException` (the repository's own), plus `TypeError` and `ValueError`
from `datetime(**kwargs)` construction. -/
inductive PyError where
  | noMatch (msg : String)
  | typeError (msg : String)
  | valueError (msg : String)
deriving DecidableEq

/-- Gregorian leap-year test, as CPython's `calendar.isleap`. -/
def isLeapYear (y : Nat) : Bool :=
  y % 4 == 0 && (y % 100 != 0 || y % 400 == 0)

/-- Days in a month, as CPython's `datetime` validation uses. -/
def daysInMonth (y m : Nat) : Nat :=
  if m == 2 then (if isLeapYear y then 29 else 28)
  else if m == 4 || m == 6 || m == 9 || m == 11 then 30
  else 31

/-- CPython `datetime(**kwargs)` with only the six fields pixorter supplies:
`TypeError` when year, month or day is absent; hour/minute/second default
to 0; `ValueError` when a field is out of range. -/
def pyDatetime (y mo d h mi s : Option Nat) : Except PyError Datetime :=
  match y, mo, d with
  | some y, some mo, some d =>
    let h := h.getD 0
    let mi := mi.getD 0
    let s := s.getD 0
    if 1 ≤ y && y ≤ 9999 && 1 ≤ mo && mo ≤ 12 && 1 ≤ d && d ≤ daysInMonth y mo
        && h ≤ 23 && mi ≤ 59 && s ≤ 59 then
      .ok ⟨y, mo, d, h, mi, s⟩
    else
      .error (.valueError "argument out of range")
  | _, _, _ => .error (.typeError "function missing required argument")

/-- Python `str.lower` on the character lists pixorter feeds it. -/
def pyLower (s : String) : String :=
  ⟨s.data.map Char.toLower⟩

/-- CPython `pathlib.PurePath.name` of a path string: the part after the
last slash. -/
def pathName (p : String) : String :=
  ⟨((p.data.reverse.takeWhile (fun c => c ≠ '/'))).reverse⟩

/-- CPython `pathlib.PurePath.suffix`: with `i` the index of the last dot of
the name, the slice `name[i:]` when `0 < i < len(name) - 1`, else `""`. -/
def pathSuffix (p : String) : String :=
  let name := (pathName p).data
  let afterDot := name.reverse.takeWhile (fun c => c ≠ '.')
  if 0 < afterDot.length ∧ afterDot.length + 1 < name.length then
    ⟨'.' :: afterDot.reverse⟩
  else
    ""

/-- `picture.Picture`: a source path and a reconciled snap date. -/
structure Picture where
  source_path : String
  snap_date : Datetime
deriving DecidableEq

/-- `Picture.extension`: `source_path.suffix.lower()[1:]`, then `jpeg` is
mapped to `jpg` and `tiff` to `tif`. -/
def Picture.extension (pic : Picture) : String :=
  let ext := ⟨(pyLower (pathSuffix pic.source_path)).data.drop 1⟩
  if ext = "jpeg" then "jpg"
  else if ext = "tiff" then "tif"
  else ext

/-- `Picture.is_video`: the canonical extension belongs to
`VIDEO_EXTENSIONS` (from the absent `globals.py`, passed as a parameter). -/
def Picture.is_video (vexts : List String) (pic : Picture) : Bool :=
  pic.extension ∈ vexts

/-- `Picture.get_output_path`: `<year>/<month>/` followed by
`{y}-{mo}-{d}-{h}h{mi}[m{s}s]_{TAG}{duplicate_count}.{ext}`. -/
def Picture.get_output_path (vexts : List String) (pic : Picture)
    (duplicate_count : Nat) : String :=
  let d := pic.snap_date
  let tag := if pic.is_video vexts then "VID" else "IMG"
  let ext := pic.extension
  let ymdhms_str :=
    toString d.year ++ "-" ++ toString d.month ++ "-" ++ toString d.day
      ++ "-" ++ toString d.hour ++ "h" ++ toString d.minute
      ++ (if d.second ≠ 0 then "m" ++ toString d.second ++ "s" else "")
  let filename := ymdhms_str ++ "_" ++ tag ++ toString duplicate_count ++ "." ++ ext
  let folder := toString d.year ++ "/" ++ toString d.month
  folder ++ "/" ++ filename

/-- Modelled from the spec: the outcome of matching one of the absent
`globals.FILENAME_REGEXES` against a filename — each pattern exposes the
optional named capture groups year, month, day, hour, minute, second, and
`int(match.group(k))` of a matched all-digit group is a natural number
(`none` where the group did not participate in the match). -/
structure MatchResult where
  year : Option Nat
  month : Option Nat
  day : Option Nat
  hour : Option Nat
  minute : Option Nat
  second : Option Nat
deriving DecidableEq

/-- `date_extract.get_date_from_filename`, over the first-match outcome of
the regex list (an input, since `globals.FILENAME_REGEXES` is absent): no
match raises `NoMatchException`; a match feeds only its present groups to
`datetime(**datetime_parts)`. -/
def get_date_from_filename (m : Option MatchResult) : Except PyError Datetime :=
  match m with
  | none => .error (.noMatch "")
  | some mr => pyDatetime mr.year mr.month mr.day mr.hour mr.minute mr.second

/-- The raw extension of a path, `path.suffix[1:]`: the suffix without its
leading dot, case preserved. -/
def rawExtension (p : String) : String :=
  ⟨(pathSuffix p).data.drop 1⟩

/-- The metadata branch of `get_snap_date` before its `except` clause
(lines 146-154): by the raw `img_path.suffix[1:]`, pick the EXIF adapter for
image extensions, the ffprobe adapter for video extensions, and raise
`NoMatchException("Unsupported extension !")` otherwise. The chosen
adapter's outcome (`get_date_from_exif` / `get_date_from_video_metadata`,
external boundary calls) is the input `adapter`. -/
def metadataAttempt (iexts vexts : List String) (img_path : String)
    (adapter : Except PyError Datetime) : Except PyError Datetime :=
  let img_extension : String := rawExtension img_path
  if img_extension ∈ iexts then adapter
  else if img_extension ∈ vexts then adapter
  else .error (.noMatch "Unsupported extension !")

/-- A `try`/`except NoMatchException` block of `get_snap_date`: a caught
`NoMatchException` becomes `None`, success becomes `Some`, and every other
exception propagates. -/
def catchNoMatch (r : Except PyError Datetime) : Except PyError (Option Datetime) :=
  match r with
  | .ok d => .ok (some d)
  | .error (.noMatch _) => .ok none
  | .error e => .error e

/-- Steps 3a/4/3b of `get_snap_date` (lines 176-209), over the two caught
source outcomes. The second component counts the `logging.warning` calls the
block performs (one, at the loose-match branch). -/
def reconcile (metadata_datetime filename_datetime : Option Datetime) :
    Except PyError Datetime × Nat :=
  match metadata_datetime, filename_datetime with
  | some md, none => (.ok md, 0)
  | none, some fd => (.ok fd, 0)
  | none, none => (.error (.noMatch "Could not determine snap_date !"), 0)
  | some md, some fd =>
    if md = fd then (.ok md, 0)
    else if md.date = fd.date then (.ok md, 1)
    else
      (.error (.noMatch "EXIF / metadata-based and filename-based datetime do not match !"), 0)

/-- `date_extract.get_snap_date`: run the metadata attempt and the filename
extraction, each wrapped in `try`/`except NoMatchException`, then reconcile.
Inputs beyond the path: the chosen metadata adapter's outcome and the
filename-regex match outcome (external boundaries). The `Nat` component
counts warning-level log calls of the body. -/
def get_snap_date (iexts vexts : List String) (img_path : String)
    (adapter : Except PyError Datetime) (fmatch : Option MatchResult) :
    Except PyError Datetime × Nat :=
  match catchNoMatch (metadataAttempt iexts vexts img_path adapter) with
  | .error e => (.error e, 0)
  | .ok metadata_datetime =>
    match catchNoMatch (get_date_from_filename fmatch) with
    | .error e => (.error e, 0)
    | .ok filename_datetime => reconcile metadata_datetime filename_datetime

/-- The `while (output_path := picture.get_output_path(duplicate_count)) in
used_paths: duplicate_count += 1` loop of `get_path_couples`, with explicit
fuel. `used_paths.length + 1` fuel always suffices for the calls the
generator makes (its used set stays empty); the fuel-0 fallback returns the
current candidate. -/
def findOutputPath (vexts : List String) (pic : Picture) (used_paths : List String) :
    Nat → Nat → String
  | 0, duplicate_count => pic.get_output_path vexts duplicate_count
  | fuel + 1, duplicate_count =>
    let output_path := pic.get_output_path vexts duplicate_count
    if output_path ∈ used_paths then
      findOutputPath vexts pic used_paths fuel (duplicate_count + 1)
    else
      output_path

/-- `picture_manip.get_path_couples`: `used_paths` is initialized empty; each
picture runs the duplicate-count loop starting at 1 and yields
`(source_path, output_path)`. As in the source, nothing is ever added to
`used_paths`. -/
def get_path_couples (vexts : List String) (pictures : List Picture) :
    List (String × String) :=
  let used_paths : List String := []
  go used_paths pictures
where
  go (used_paths : List String) : List Picture → List (String × String)
    | [] => []
    | picture :: rest =>
      let output_path :=
        findOutputPath vexts picture used_paths (used_paths.length + 1) 1
      (picture.source_path, output_path) :: go used_paths rest

/-- Modelled from the spec: canonical-extension normalization of a raw
extension — lowercase it, then `jpeg` maps to `jpg` and `tiff` maps to
`tif`, and any other extension is returned lowercased unchanged. -/
def canonicalExtensionSpec (raw : String) : String :=
  let l := pyLower raw
  if l = "jpeg" then "jpg"
  else if l = "tiff" then "tif"
  else l

lemma findOutputPath_nil (vexts : List String) (pic : Picture) (count : Nat) :
    findOutputPath vexts pic [] 1 count = pic.get_output_path vexts count := by
  simp [findOutputPath]

lemma get_path_couples_go_nil (vexts : List String) (pictures : List Picture) :
    get_path_couples.go vexts [] pictures
      = pictures.map (fun pic => (pic.source_path, pic.get_output_path vexts 1)) := by
  induction pictures with
  | nil => rfl
  | cons pic rest ih =>
    simp only [get_path_couples.go, List.length_nil, Nat.zero_add, findOutputPath_nil, ih,
      List.map_cons]

/-- Claim C9: for every source path the canonical extension is the suffix
lowercased with `jpeg` mapped to `jpg` and `tiff` mapped to `tif`, others
lowercased unchanged; in particular `photo.JPEG` yields `jpg` and
`clip.TIFF` yields `tif`. -/
theorem C9_extension_normalization :
    (∀ (p : String) (d : Datetime),
        (Picture.mk p d).extension = canonicalExtensionSpec (rawExtension p))
    ∧ (Picture.mk "photo.JPEG" ⟨2024, 1, 1, 0, 0, 0⟩).extension = "jpg"
    ∧ (Picture.mk "clip.TIFF" ⟨2024, 1, 1, 0, 0, 0⟩).extension = "tif" := by
  refine ⟨?_, rfl, rfl⟩
  intro p d
  unfold Picture.extension canonicalExtensionSpec rawExtension pyLower
  rw [List.map_drop]

/-- Claim C7: for every picture and every counter value at least 1, the
output path is
`<year>/<month>/<year>-<month>-<day>-<hour>h<minute>[m<second>s]_<TAG><n>.<ext>`
with the seconds part present exactly when the second field is nonzero and
TAG equal to VID for video extensions and IMG otherwise. -/
theorem C7_output_path_format (vexts : List String) (p : String) (d : Datetime)
    (n : Nat) (h : 1 ≤ n) :
    Picture.get_output_path vexts ⟨p, d⟩ n =
      toString d.year ++ "/" ++ toString d.month ++ "/"
        ++ toString d.year ++ "-" ++ toString d.month ++ "-" ++ toString d.day
        ++ "-" ++ toString d.hour ++ "h" ++ toString d.minute
        ++ (if d.second ≠ 0 then "m" ++ toString d.second ++ "s" else "")
        ++ "_" ++ (if (Picture.mk p d).extension ∈ vexts then "VID" else "IMG")
        ++ toString n ++ "." ++ (Picture.mk p d).extension := by
  unfold Picture.get_output_path Picture.is_video
  simp only [decide_eq_true_eq, String.append_assoc]

/-- Witness for C7 at a concrete picture and counter 1. -/
theorem C7_output_path_format_witness :
    Picture.get_output_path ["mp4"] ⟨"a.jpg", ⟨2024, 3, 5, 14, 30, 45⟩⟩ 1 =
      toString 2024 ++ "/" ++ toString 3 ++ "/"
        ++ toString 2024 ++ "-" ++ toString 3 ++ "-" ++ toString 5
        ++ "-" ++ toString 14 ++ "h" ++ toString 30
        ++ (if 45 ≠ 0 then "m" ++ toString 45 ++ "s" else "")
        ++ "_"
        ++ (if (Picture.mk "a.jpg" ⟨2024, 3, 5, 14, 30, 45⟩).extension ∈ ["mp4"]
            then "VID" else "IMG")
        ++ toString 1 ++ "." ++ (Picture.mk "a.jpg" ⟨2024, 3, 5, 14, 30, 45⟩).extension :=
  C7_output_path_format ["mp4"] "a.jpg" ⟨2024, 3, 5, 14, 30, 45⟩ 1 (by decide)

/-- Claim C2: `used_paths` is never added to after its empty initialization,
so the while-loop condition is false at its first test and every yielded
output path is the one computed with `duplicate_count = 1`. -/
theorem C2_every_path_uses_count_one (vexts : List String) (pictures : List Picture) :
    get_path_couples vexts pictures
      = pictures.map (fun pic => (pic.source_path, pic.get_output_path vexts 1)) := by
  unfold get_path_couples
  exact get_path_couples_go_nil vexts pictures

/-- Claim C1 (failing evaluation): two pictures with identical source path,
snap date and extension receive the identical output path — the generator
does not record used paths, so outputs are not pairwise distinct. -/
theorem C1_duplicate_output_paths :
    get_path_couples ["mp4"]
        [Picture.mk "a.jpg" ⟨2024, 3, 5, 14, 30, 0⟩,
         Picture.mk "a.jpg" ⟨2024, 3, 5, 14, 30, 0⟩]
      = [("a.jpg", "2024/3/2024-3-5-14h30_IMG1.jpg"),
         ("a.jpg", "2024/3/2024-3-5-14h30_IMG1.jpg")] := by
  rfl

/-- Claim C10: in every path-assignment session the counter loop terminates
by its own condition — one output pair is produced per input picture, and
for the (always empty) used set the loop returns a candidate that is not in
it. -/
theorem C10_loop_terminates (vexts : List String) (pictures : List Picture) :
    (get_path_couples vexts pictures).length = pictures.length
    ∧ ∀ (pic : Picture) (used : List String) (count : Nat), used = [] →
        findOutputPath vexts pic used (used.length + 1) count
            = pic.get_output_path vexts count
        ∧ pic.get_output_path vexts count ∉ used := by
  constructor
  · unfold get_path_couples
    rw [get_path_couples_go_nil, List.length_map]
  · intro pic used count hused
    subst hused
    exact ⟨findOutputPath_nil vexts pic count, by simp⟩

/-- Witness for C10 at a concrete picture with the empty used set. -/
theorem C10_loop_terminates_witness :
    findOutputPath ["mp4"] (Picture.mk "a.jpg" ⟨2024, 3, 5, 14, 30, 0⟩) [] 1 1
        = (Picture.mk "a.jpg" ⟨2024, 3, 5, 14, 30, 0⟩).get_output_path ["mp4"] 1
    ∧ (Picture.mk "a.jpg" ⟨2024, 3, 5, 14, 30, 0⟩).get_output_path ["mp4"] 1 ∉
        ([] : List String) :=
  (C10_loop_terminates ["mp4"] [Picture.mk "a.jpg" ⟨2024, 3, 5, 14, 30, 0⟩]).2
    (Picture.mk "a.jpg" ⟨2024, 3, 5, 14, 30, 0⟩) [] 1 rfl

lemma get_snap_date_eq_reconcile (iexts vexts : List String) (img_path : String)
    (adapter : Except PyError Datetime) (fmatch : Option MatchResult)
    (m f : Option Datetime)
    (hm : catchNoMatch (metadataAttempt iexts vexts img_path adapter) = .ok m)
    (hf : catchNoMatch (get_date_from_filename fmatch) = .ok f) :
    get_snap_date iexts vexts img_path adapter fmatch = reconcile m f := by
  unfold get_snap_date
  rw [hm, hf]

/-- Claim C3 (failing evaluation): a filename-pattern match that lacks the
required year field makes `datetime(**datetime_parts)` raise `TypeError`,
which `get_snap_date` does not catch — an error other than the terminal
`NoMatchException` propagates to the caller. -/
theorem C3_uncaught_source_error :
    get_snap_date ["jpg"] ["mp4"] "IMG_1430.xyz" (.error (.noMatch ""))
        (some ⟨none, none, none, some 14, some 30, none⟩)
      = (.error (.typeError "function missing required argument"), 0) := by
  rfl

/-- Claim C4: with both sources evaluated without a foreign error,
`get_snap_date` raises `NoMatchException` exactly when both sources failed
or both succeeded with timestamps differing in calendar date, and returns a
timestamp in every other case. -/
theorem C4_terminal_failure_cases (iexts vexts : List String) (img_path : String)
    (adapter : Except PyError Datetime) (fmatch : Option MatchResult)
    (m f : Option Datetime)
    (hm : catchNoMatch (metadataAttempt iexts vexts img_path adapter) = .ok m)
    (hf : catchNoMatch (get_date_from_filename fmatch) = .ok f) :
    ((∃ msg, (get_snap_date iexts vexts img_path adapter fmatch).1
          = .error (.noMatch msg))
        ↔ (m = none ∧ f = none)
          ∨ (∃ dm df, m = some dm ∧ f = some df ∧ dm.date ≠ df.date))
    ∧ (¬ ((m = none ∧ f = none)
          ∨ (∃ dm df, m = some dm ∧ f = some df ∧ dm.date ≠ df.date)) →
        ∃ d, (get_snap_date iexts vexts img_path adapter fmatch).1 = .ok d) := by
  rw [get_snap_date_eq_reconcile iexts vexts img_path adapter fmatch m f hm hf]
  rcases m with _ | dm <;> rcases f with _ | df <;> simp [reconcile]
  by_cases heq : dm = df
  · subst heq
    simp
  · by_cases hdate : dm.date = df.date
    · simp [heq, hdate]
    · simp [heq, hdate]

/-- Witness for C4: both sources fail (unsupported extension and no
filename match), so the result is the terminal `NoMatchException`. -/
theorem C4_terminal_failure_cases_witness :
    ((∃ msg, (get_snap_date ["jpg"] ["mp4"] "x.xyz" (.error (.noMatch "")) none).1
          = .error (.noMatch msg))
        ↔ ((none : Option Datetime) = none ∧ (none : Option Datetime) = none)
          ∨ (∃ dm df, (none : Option Datetime) = some dm
              ∧ (none : Option Datetime) = some df ∧ dm.date ≠ df.date))
    ∧ (¬ (((none : Option Datetime) = none ∧ (none : Option Datetime) = none)
          ∨ (∃ dm df, (none : Option Datetime) = some dm
              ∧ (none : Option Datetime) = some df ∧ dm.date ≠ df.date)) →
        ∃ d, (get_snap_date ["jpg"] ["mp4"] "x.xyz" (.error (.noMatch "")) none).1
          = .ok d) :=
  C4_terminal_failure_cases ["jpg"] ["mp4"] "x.xyz" (.error (.noMatch "")) none
    none none rfl rfl

/-- Claim C5: when exactly one of the two sources succeeds, `get_snap_date`
returns exactly the succeeding source's timestamp. -/
theorem C5_single_source_authoritative (iexts vexts : List String) (img_path : String)
    (adapter : Except PyError Datetime) (fmatch : Option MatchResult) (d : Datetime) :
    (catchNoMatch (metadataAttempt iexts vexts img_path adapter) = .ok (some d) →
      catchNoMatch (get_date_from_filename fmatch) = .ok none →
      (get_snap_date iexts vexts img_path adapter fmatch).1 = .ok d)
    ∧ (catchNoMatch (metadataAttempt iexts vexts img_path adapter) = .ok none →
      catchNoMatch (get_date_from_filename fmatch) = .ok (some d) →
      (get_snap_date iexts vexts img_path adapter fmatch).1 = .ok d) := by
  constructor <;> intro hm hf <;>
    rw [get_snap_date_eq_reconcile iexts vexts img_path adapter fmatch _ _ hm hf] <;>
    rfl

/-- Witness for C5: only the metadata source succeeds, and its timestamp is
returned. -/
theorem C5_single_source_authoritative_witness :
    (get_snap_date ["jpg"] ["mp4"] "x.jpg" (.ok ⟨2024, 3, 5, 14, 30, 0⟩) none).1
      = .ok ⟨2024, 3, 5, 14, 30, 0⟩ :=
  (C5_single_source_authoritative ["jpg"] ["mp4"] "x.jpg"
      (.ok ⟨2024, 3, 5, 14, 30, 0⟩) none ⟨2024, 3, 5, 14, 30, 0⟩).1 rfl rfl

/-- Claim C6: when both sources succeed on the same calendar date but with
different times, `get_snap_date` returns the metadata timestamp with exactly
one warning; when the timestamps are equal it returns that timestamp with no
warning. -/
theorem C6_loose_match_warning (iexts vexts : List String) (img_path : String)
    (adapter : Except PyError Datetime) (fmatch : Option MatchResult)
    (dm df : Datetime)
    (hm : catchNoMatch (metadataAttempt iexts vexts img_path adapter) = .ok (some dm))
    (hf : catchNoMatch (get_date_from_filename fmatch) = .ok (some df)) :
    (dm ≠ df → dm.date = df.date →
      get_snap_date iexts vexts img_path adapter fmatch = (.ok dm, 1))
    ∧ (dm = df →
      get_snap_date iexts vexts img_path adapter fmatch = (.ok dm, 0)) := by
  rw [get_snap_date_eq_reconcile iexts vexts img_path adapter fmatch _ _ hm hf]
  constructor
  · intro hne hdate
    simp [reconcile, hne, hdate]
  · intro heq
    simp [reconcile, heq]

/-- Witness for C6: sources agree on 2024-03-05 but differ in time of day;
the metadata timestamp is returned with exactly one warning. -/
theorem C6_loose_match_warning_witness :
    get_snap_date ["jpg"] ["mp4"] "x.jpg" (.ok ⟨2024, 3, 5, 14, 30, 0⟩)
        (some ⟨some 2024, some 3, some 5, some 10, none, none⟩)
      = (.ok ⟨2024, 3, 5, 14, 30, 0⟩, 1) :=
  (C6_loose_match_warning ["jpg"] ["mp4"] "x.jpg" (.ok ⟨2024, 3, 5, 14, 30, 0⟩)
      (some ⟨some 2024, some 3, some 5, some 10, none, none⟩)
      ⟨2024, 3, 5, 14, 30, 0⟩ ⟨2024, 3, 5, 10, 0, 0⟩ rfl rfl).1
    (by decide) rfl

/-- Claim C8: an extension in neither supported set makes the metadata
attempt a caught `NoMatchException` (no hard failure), the filename source
is still consulted, and reconciliation succeeds whenever the filename source
succeeds — with no warning. -/
theorem C8_unsupported_extension (iexts vexts : List String) (img_path : String)
    (adapter : Except PyError Datetime) (fmatch : Option MatchResult) (d : Datetime)
    (h1 : rawExtension img_path ∉ iexts) (h2 : rawExtension img_path ∉ vexts)
    (hf : get_date_from_filename fmatch = .ok d) :
    get_snap_date iexts vexts img_path adapter fmatch = (.ok d, 0) := by
  have hm : catchNoMatch (metadataAttempt iexts vexts img_path adapter) = .ok none := by
    unfold metadataAttempt
    simp [h1, h2, catchNoMatch]
  have hf' : catchNoMatch (get_date_from_filename fmatch) = .ok (some d) := by
    rw [hf]
    rfl
  rw [get_snap_date_eq_reconcile iexts vexts img_path adapter fmatch _ _ hm hf']
  rfl

/-- Witness for C8: extension `xyz` is in neither supported set, the
filename pattern supplies a full date, and that date is returned. -/
theorem C8_unsupported_extension_witness :
    get_snap_date ["jpg"] ["mp4"] "pic-2024-03-05.xyz" (.error (.noMatch ""))
        (some ⟨some 2024, some 3, some 5, none, none, none⟩)
      = (.ok ⟨2024, 3, 5, 0, 0, 0⟩, 0) :=
  C8_unsupported_extension ["jpg"] ["mp4"] "pic-2024-03-05.xyz"
    (.error (.noMatch "")) (some ⟨some 2024, some 3, some 5, none, none, none⟩)
    ⟨2024, 3, 5, 0, 0, 0⟩ (by decide) (by decide) rfl
